import Mathlib

/-!
# Sharecard frontend configuration

A shallow embedding of the two configuration modules of the frontend:

* `frontend/src/api.js`: the base URL chosen from `import.meta.env.VITE_API_BASE_URL`
  and the configuration object handed to `axios.create`;
* `frontend/vite.config.js`: the dev-server settings and its proxy table.

JavaScript strings are embedded as Lean strings, JavaScript numbers that occur in the
configuration (all small non-negative integers) as natural numbers.
-/

namespace Sharecard

/-! ## JavaScript values needed by `api.js` -/

/-- The primitive JavaScript values that can flow through `a || b` in `api.js`. -/
inductive JsVal where
  | undefined : JsVal
  | null : JsVal
  | bool : Bool → JsVal
  | str : String → JsVal
  deriving DecidableEq, Repr

/-- ECMAScript `ToBoolean` on these values: `undefined`, `null`, `false` and the
empty string are falsy, everything else is truthy. -/
def JsVal.truthy : JsVal → Bool
  | .undefined => false
  | .null => false
  | .bool b => b
  | .str s => s != ""

/-- The JavaScript operator `a || b`: the left operand when it is truthy, otherwise
the right operand. -/
def JsVal.or (a b : JsVal) : JsVal :=
  if a.truthy then a else b

/-- Reading `import.meta.env.VITE_API_BASE_URL`: an environment variable is either
unset (the property read gives `undefined`) or set to a string. -/
def readEnv : Option String → JsVal
  | none => .undefined
  | some s => .str s

/-! ## `frontend/src/api.js` -/

/-- Source: `const baseURL = import.meta.env.VITE_API_BASE_URL || ''`. -/
def baseURL (env : Option String) : JsVal :=
  (readEnv env).or (.str "")

/-- The object literal passed to `axios.create`. -/
structure AxiosConfig where
  baseURL : JsVal
  timeout : Nat
  deriving DecidableEq, Repr

/-- Source: the argument of `axios.create({ baseURL, timeout: 15000 })`, as a
function of the value of the override environment variable. -/
def apiClientConfig (env : Option String) : AxiosConfig :=
  { baseURL := baseURL env, timeout := 15000 }

/-! ## `frontend/vite.config.js` -/

/-- One entry of `server.proxy`. -/
structure ProxyRule where
  target : String
  changeOrigin : Bool
  secure : Bool
  rewrite : String → String

/-- The `server.host` option accepts a boolean or a host name. -/
inductive HostSetting where
  | flag : Bool → HostSetting
  | name : String → HostSetting
  deriving DecidableEq, Repr

/-- The `server` section of the configuration. -/
structure ServerConfig where
  host : HostSetting
  port : Nat
  proxy : List (String × ProxyRule)

/-- The object passed to `defineConfig`; plugins are recorded by name. -/
structure ViteConfig where
  plugins : List String
  server : ServerConfig

/-- Source: `rewrite: (path) => path`. -/
def rewrite (path : String) : String := path

/-- Source: the rule stored under the key `/api`. -/
def apiRule : ProxyRule :=
  { target := "http://backend:8000"
    changeOrigin := true
    secure := false
    rewrite := rewrite }

/-- Source: the default export of `vite.config.js`. -/
def viteConfig : ViteConfig :=
  { plugins := ["vue"]
    server :=
      { host := .flag true
        port := 5173
        proxy := [("/api", apiRule)] } }

/-- Modelled from the spec: how the dev-server tool (an external library, absent from
src/) tests a request path against a proxy key. Section 4.2: a rule "matches all
requests whose path begins with" its key. -/
def beginsWith (path key : String) : Bool :=
  key.data.isPrefixOf path.data

/-- The first rule of a proxy table whose key the path begins with. -/
def selectRule (table : List (String × ProxyRule)) (path : String) : Option ProxyRule :=
  (table.find? (fun e => beginsWith path e.1)).map (fun e => e.2)

/-- Whether the configured proxy table selects the path for forwarding. -/
def isForwarded (path : String) : Bool :=
  (selectRule viteConfig.server.proxy path).isSome

/-- The path sent to the backend for a forwarded request: the selected rule's
rewrite applied to the request path. -/
def forwardedPath (path : String) : Option String :=
  (selectRule viteConfig.server.proxy path).map (fun r => r.rewrite path)

/-! ## Helper lemmas -/

theorem truthy_str_of_ne (s : String) (h : s ≠ "") : (JsVal.str s).truthy = true := by
  simp [JsVal.truthy, h]

theorem selectRule_proxy (p : String) :
    selectRule viteConfig.server.proxy p
      = if beginsWith p "/api" = true then some apiRule else none := by
  unfold selectRule viteConfig
  by_cases h : beginsWith p "/api" = true <;> simp [List.find?, h]

/-! ## Client configuration -/

/-- C1: for every non-empty string supplied as the override variable, the `baseURL`
field of the object passed to the client constructor is exactly that string. -/
theorem baseURL_override (s : String) (h : s ≠ "") :
    (apiClientConfig (some s)).baseURL = .str s := by
  simp [apiClientConfig, baseURL, readEnv, JsVal.or, truthy_str_of_ne s h]

theorem baseURL_override_witness :
    (apiClientConfig (some "https://api.example.com")).baseURL
        = .str "https://api.example.com"
      ∧ (apiClientConfig (some "0")).baseURL = .str "0"
      ∧ (apiClientConfig (some "false")).baseURL = .str "false"
      ∧ (apiClientConfig (some " not a url ")).baseURL = .str " not a url " :=
  ⟨baseURL_override "https://api.example.com" (by decide),
   baseURL_override "0" (by decide),
   baseURL_override "false" (by decide),
   baseURL_override " not a url " (by decide)⟩

/-- C2: when the override variable is unset or is the empty string, the `baseURL`
of the client configuration is the empty string, and so neither `undefined` nor
`null`. -/
theorem baseURL_default :
    (apiClientConfig none).baseURL = .str ""
      ∧ (apiClientConfig (some "")).baseURL = .str ""
      ∧ (apiClientConfig none).baseURL ≠ .undefined
      ∧ (apiClientConfig none).baseURL ≠ .null
      ∧ (apiClientConfig (some "")).baseURL ≠ .undefined
      ∧ (apiClientConfig (some "")).baseURL ≠ .null := by
  refine ⟨?_, ?_, ?_, ?_, ?_, ?_⟩ <;> decide

/-- C3: whatever the override variable holds (unset, empty, any string), the
`timeout` of the client configuration is 15000; in particular two configurations
with different base URLs carry the same timeout. -/
theorem timeout_fixed :
    (∀ env : Option String, (apiClientConfig env).timeout = 15000)
      ∧ (∀ env₁ env₂ : Option String,
          (apiClientConfig env₁).timeout = (apiClientConfig env₂).timeout) :=
  ⟨fun _ => rfl, fun _ _ => rfl⟩

/-! ## Dev-server configuration -/

/-- C4: for every request path beginning with `/api`, the rewrite function of the
`/api` proxy rule returns the path unchanged. -/
theorem rewrite_api_unchanged (p : String) (h : beginsWith p "/api" = true) :
    apiRule.rewrite p = p ∧ forwardedPath p = some p := by
  refine ⟨rfl, ?_⟩
  simp [forwardedPath, selectRule_proxy, h, apiRule, rewrite]

theorem rewrite_api_unchanged_witness :
    beginsWith "/api/items" "/api" = true
      ∧ apiRule.rewrite "/api/items" = "/api/items"
      ∧ forwardedPath "/api/items" = some "/api/items" :=
  ⟨by decide, rewrite_api_unchanged "/api/items" (by decide)⟩

/-- C5: the proxy table has exactly one rule, keyed by `/api`; a request path is
selected for forwarding exactly when it begins with `/api`; `/api/items` is
forwarded and `/index.html` is not. -/
theorem proxy_single_rule :
    viteConfig.server.proxy.map Prod.fst = ["/api"]
      ∧ viteConfig.server.proxy.length = 1
      ∧ (∀ p : String, isForwarded p = true ↔ beginsWith p "/api" = true)
      ∧ isForwarded "/api/items" = true
      ∧ isForwarded "/index.html" = false := by
  have key : ∀ p : String, isForwarded p = true ↔ beginsWith p "/api" = true := by
    intro p
    unfold isForwarded
    rw [selectRule_proxy]
    by_cases h : beginsWith p "/api" = true <;> simp [h]
  refine ⟨rfl, rfl, key, (key _).2 (by decide), ?_⟩
  have hne : ¬ beginsWith "/index.html" "/api" = true := by decide
  have := (key "/index.html").not.2 hne
  simpa using this

/-- C6: every request path matched by the `/api` rule is forwarded under a rule
whose target is `http://backend:8000`, with `changeOrigin` true and `secure`
false. -/
theorem proxy_target_fixed (p : String) (h : beginsWith p "/api" = true) :
    ∃ r : ProxyRule, selectRule viteConfig.server.proxy p = some r
      ∧ r.target = "http://backend:8000"
      ∧ r.changeOrigin = true
      ∧ r.secure = false := by
  refine ⟨apiRule, ?_, rfl, rfl, rfl⟩
  rw [selectRule_proxy, if_pos h]

theorem proxy_target_fixed_witness :
    beginsWith "/api/items" "/api" = true
      ∧ ∃ r : ProxyRule, selectRule viteConfig.server.proxy "/api/items" = some r
        ∧ r.target = "http://backend:8000"
        ∧ r.changeOrigin = true
        ∧ r.secure = false :=
  ⟨by decide, proxy_target_fixed "/api/items" (by decide)⟩

/-- C7: the dev-server configuration sets `host` to the boolean `true` (listen on
all interfaces rather than a named host) and `port` to 5173. -/
theorem server_host_port :
    viteConfig.server.host = .flag true ∧ viteConfig.server.port = 5173 :=
  ⟨rfl, rfl⟩

/-- C9: for every request path matched by the `/api` rule, the path forwarded to the
backend still begins with `/api`; the rewrite function is the identity on every
string and is idempotent. -/
theorem rewrite_keeps_api (p q : String) (h : beginsWith p "/api" = true) :
    (∃ p', forwardedPath p = some p' ∧ beginsWith p' "/api" = true)
      ∧ beginsWith (apiRule.rewrite p) "/api" = true
      ∧ apiRule.rewrite q = q
      ∧ apiRule.rewrite (apiRule.rewrite q) = apiRule.rewrite q := by
  refine ⟨⟨p, ?_, h⟩, h, rfl, rfl⟩
  simp [forwardedPath, selectRule_proxy, h, apiRule, rewrite]

theorem rewrite_keeps_api_witness :
    beginsWith "/api/cards/7" "/api" = true
      ∧ (∃ p', forwardedPath "/api/cards/7" = some p' ∧ beginsWith p' "/api" = true)
      ∧ beginsWith (apiRule.rewrite "/api/cards/7") "/api" = true
      ∧ apiRule.rewrite "/index.html" = "/index.html"
      ∧ apiRule.rewrite (apiRule.rewrite "/index.html") = apiRule.rewrite "/index.html" :=
  ⟨by decide, rewrite_keeps_api "/api/cards/7" "/index.html" (by decide)⟩

end Sharecard
